import Mathlib

/-!
Shallow embedding of the Firecrawl/Airbnb MCP repository
(`mcp_client.py`, `mcp_server.py`, `MCP-Servers/airbnb-mcp-agent/main.py`)
and proofs about the behaviour of its operations.
-/

namespace MCPClient

/-- One recorded tool invocation, the dict `{"tool": ..., "input": ...}`
appended by `ToolUsageCallbackHandler.on_tool_start`. -/
structure ToolRecord where
  tool : String
  input : String
deriving Repr, DecidableEq

/-- The dict literal built in `on_tool_start`, viewed as an association list:
it carries exactly the keys `"tool"` and `"input"`. -/
def recordDict (r : ToolRecord) : List (String × String) :=
  [("tool", r.tool), ("input", r.input)]

/-- Lookup of a key in a record dict (Python `record[key]` / `record.get(key)`). -/
def dictGet (d : List (String × String)) (k : String) : Option String :=
  (d.find? (fun p => p.1 == k)).map (fun p => p.2)

/-- `on_tool_start(serialized, input_str)`: reads `serialized.get("name",
"unknown_tool")` and appends `{"tool": tool_name, "input": input_str}` to
`self.tool_usage`. -/
def on_tool_start (records : List ToolRecord) (serializedName : Option String)
    (input_str : String) : List ToolRecord :=
  records ++ [⟨serializedName.getD "unknown_tool", input_str⟩]

/-- `on_tool_end(output)`: prints `"   Output: " + output[:150] + "..."` when
`len(str(output)) > 150`, otherwise `"   Output: " + output`; it does not touch
`self.tool_usage`.  Returns (record list after the call, printed line). -/
def on_tool_end (records : List ToolRecord) (output : String) :
    List ToolRecord × String :=
  (records,
    if output.length > 150 then "   Output: " ++ output.take 150 ++ "..."
    else "   Output: " ++ output)

/-- The f-string `f"{i}. {usage['tool']} - Input: {usage['input']}\n"`. -/
def summaryLine (i : Nat) (r : ToolRecord) : String :=
  toString i ++ ". " ++ r.tool ++ " - Input: " ++ r.input ++ "\n"

/-- `get_tool_usage_summary()`: returns `"No tools were used."` when
`self.tool_usage` is empty, otherwise starts from the header and accumulates
one numbered line per record (`enumerate(self.tool_usage, 1)`). -/
def get_tool_usage_summary (records : List ToolRecord) : String :=
  if records.isEmpty then
    "No tools were used."
  else
    records.enum.foldl (fun acc p => acc ++ summaryLine (p.1 + 1) p.2)
      "\n🧰 Tools Used:\n"

theorem string_append_assoc (a b c : String) : a ++ b ++ c = a ++ (b ++ c) := by
  apply String.ext
  simp [String.data_append]

theorem foldl_append_eq_join {α : Type} (f : α → String) :
    ∀ (l : List α) (acc : String),
      l.foldl (fun a x => a ++ f x) acc = acc ++ String.join (l.map f)
  | [], acc => by
    apply String.ext
    simp [String.data_append]
  | x :: xs, acc => by
    rw [List.foldl_cons, foldl_append_eq_join f xs (acc ++ f x)]
    apply String.ext
    simp [String.data_append]

end MCPClient

namespace MCPClient

/-- C1: for every sequence of N recorded tool invocations,
`get_tool_usage_summary` returns the sentinel `"No tools were used."` when the
sequence is empty, and otherwise the header followed by exactly one 1-based
line `"{i}. {name} - Input: {input}"` per record, in call order; being a pure
function of the record sequence, it does not modify it. -/
theorem c1_summary_listing (records : List ToolRecord) :
    get_tool_usage_summary [] = "No tools were used."
    ∧ (records ≠ [] →
        get_tool_usage_summary records =
          "\n🧰 Tools Used:\n" ++
            String.join (records.enum.map (fun p => summaryLine (p.1 + 1) p.2))) := by
  constructor
  · rfl
  · intro h
    rw [get_tool_usage_summary, if_neg (by simpa using h)]
    rw [show (fun (acc : String) (p : Nat × ToolRecord) =>
          acc ++ summaryLine (p.1 + 1) p.2)
        = (fun acc p => acc ++ (fun q : Nat × ToolRecord =>
            summaryLine (q.1 + 1) q.2) p) from rfl]
    exact foldl_append_eq_join _ records.enum _

/-- C1 witness: evaluation on a concrete two-record sequence. -/
theorem c1_summary_listing_witness :
    get_tool_usage_summary [⟨"a", "x"⟩, ⟨"b", "y"⟩] =
      "\n🧰 Tools Used:\n" ++
        String.join ([⟨"a", "x"⟩, ⟨"b", "y"⟩].enum.map
          (fun p : Nat × ToolRecord => summaryLine (p.1 + 1) p.2)) :=
  (c1_summary_listing [⟨"a", "x"⟩, ⟨"b", "y"⟩]).2 (by decide)

/-- C2 counterexample: the claim says `on_tool_end` attaches the full output
value to the most recently opened invocation record.  In the code the record
dict built by `on_tool_start` has exactly the keys `"tool"` and `"input"`,
and `on_tool_end` leaves `self.tool_usage` completely unchanged: after
`on_tool_start` (tool `"t"`, input `"i"`) and `on_tool_end "RESULT"`, the
record list is still `[{"tool": "t", "input": "i"}]`, its single record has
no `"output"` key, and the output string appears in no field. -/
theorem c2_counterexample :
    (on_tool_end (on_tool_start [] (some "t") "i") "RESULT").1
        = on_tool_start [] (some "t") "i"
    ∧ on_tool_start [] (some "t") "i" = [⟨"t", "i"⟩]
    ∧ dictGet (recordDict ⟨"t", "i"⟩) "output" = none
    ∧ ∀ r ∈ on_tool_start [] (some "t") "i",
        r.tool ≠ "RESULT" ∧ r.input ≠ "RESULT" := by
  refine ⟨rfl, rfl, rfl, ?_⟩
  intro r hr
  simp only [on_tool_start, List.nil_append, List.mem_singleton] at hr
  subst hr
  exact ⟨by decide, by decide⟩

/-- C2 amended: `on_tool_end` stores nothing at all — the record sequence is
returned unchanged and the output value appears in no record; only the printed
rendering is affected: when the output's string length exceeds 150 it prints
the first 150 characters followed by an ellipsis (a 164-character line), and
otherwise it prints the full output. -/
theorem c2_output_truncation (records : List ToolRecord) (output : String) :
    (on_tool_end records output).1 = records
    ∧ (output.length ≤ 150 →
        (on_tool_end records output).2 = "   Output: " ++ output)
    ∧ (output.length > 150 →
        (on_tool_end records output).2
            = "   Output: " ++ output.take 150 ++ "..."
          ∧ ((on_tool_end records output).2).length = 164) := by
  refine ⟨rfl, ?_, ?_⟩
  · intro h
    simp only [on_tool_end]
    rw [if_neg (by omega)]
  · intro h
    simp only [on_tool_end]
    rw [if_pos (by omega)]
    refine ⟨rfl, ?_⟩
    have htake : (output.take 150).length = 150 := by
      have : (output.take 150).data = output.data.take 150 := String.data_take output 150
      have hlen : (output.take 150).length = (output.data.take 150).length := by
        rw [String.length, this]
      rw [hlen, List.length_take]
      have : output.data.length = output.length := rfl
      omega
    have hlenapp : ∀ a b : String, (a ++ b).length = a.length + b.length := by
      intro a b
      show (a ++ b).data.length = a.data.length + b.data.length
      rw [String.data_append, List.length_append]
    rw [hlenapp, hlenapp, htake]
    rfl

set_option maxRecDepth 8192 in
/-- C2 witness: concrete evaluation at a 151-character output. -/
theorem c2_output_truncation_witness :
    (on_tool_end [] (String.mk (List.replicate 151 'z'))).1 = []
    ∧ (on_tool_end [] (String.mk (List.replicate 151 'z'))).2
        = "   Output: " ++ (String.mk (List.replicate 151 'z')).take 150 ++ "..."
    ∧ ((on_tool_end [] (String.mk (List.replicate 151 'z'))).2).length = 164 :=
  ⟨(c2_output_truncation [] (String.mk (List.replicate 151 'z'))).1,
   ((c2_output_truncation [] (String.mk (List.replicate 151 'z'))).2.2
      (by decide)).1,
   ((c2_output_truncation [] (String.mk (List.replicate 151 'z'))).2.2
      (by decide)).2⟩

end MCPClient

namespace MCPServer

/-- Python `str.startswith(p)`: the character-list prefix test. -/
def pyStartsWith (s p : String) : Bool :=
  p.data.isPrefixOf s.data

/-- The request body handed to `self.app.scrape_url`: the `formats` list and
the optional `jsonOptions.schema`. -/
structure ScrapeRequest where
  formats : List String
  jsonSchema : Option String := none
deriving Repr, DecidableEq

/-- The external scraping response `{json?, markdown?}`; an absent or
`None`-valued field is `none`. -/
structure ScrapeResponse where
  json : Option String := none
  markdown : Option String := none
deriving Repr, DecidableEq

/-- Python truthiness of `response.get(field)` for an optional string-valued
field: `None` (absent field) and the empty value are falsy. -/
def pyTruthy : Option String → Bool
  | none => false
  | some s => !(s == "")

/-- The behaviour of `self.app.scrape_url`: for a URL and a request body it
either raises an exception (`.error` with the exception's message) or returns
a response. -/
def ScrapeOracle : Type := String → ScrapeRequest → Except String ScrapeResponse

/-- The dict a Host operation returns: the error envelope `{"error": msg}`, or
one of the data shapes the code builds (`response["json"]` passed through,
`{"raw_text", "note"}`, `{"content"}`). -/
inductive HostResult where
  | jsonData (j : String)
  | rawText (raw : String) (note : String)
  | content (md : String)
  | error (msg : String)
deriving Repr, DecidableEq

/-- Whether the result is the `{"error": ...}` envelope variant. -/
def HostResult.isError : HostResult → Bool
  | .error _ => true
  | _ => false

/-- The schema switch in `extract_structured_data`: `"company"` selects
`CompanyInfoSchema`, `"documentation"` selects `DocumentationSchema`, anything
else the `GeneralContentSchema` fallback. -/
def schemaFor (schema_type : String) : String :=
  if schema_type == "company" then "CompanyInfoSchema"
  else if schema_type == "documentation" then "DocumentationSchema"
  else "GeneralContentSchema"

/-- `FirecrawlClient.extract_structured_data(url, schema_type)`.  Returns the
result dict together with the list of external calls issued (the URLs passed
to `scrape_url`). -/
def extract_structured_data (scrape : ScrapeOracle) (url : String)
    (schema_type : String) : HostResult × List String :=
  if !(pyStartsWith url "http") then
    (.error "Invalid URL", [])
  else
    match scrape url ⟨["json", "markdown"], some (schemaFor schema_type)⟩ with
    | .error e => (.error ("Extraction failed: " ++ e), [url])
    | .ok response =>
      if pyTruthy response.json then
        (.jsonData (response.json.getD ""), [url])
      else if pyTruthy response.markdown then
        (.rawText (response.markdown.getD "")
          "Structured data not found. Returned raw markdown content.", [url])
      else
        (.error "No data extracted from the page.", [url])

/-- `FirecrawlClient.get_website_content(url)`.  Returns the result dict
together with the list of external calls issued. -/
def get_website_content (scrape : ScrapeOracle) (url : String) :
    HostResult × List String :=
  if url == "" || !(pyStartsWith url "http") then
    (.error "Invalid URL. Must start with http:// or https://", [])
  else
    match scrape url ⟨["markdown"], none⟩ with
    | .error e => (.error ("Error fetching content: " ++ e), [url])
    | .ok response =>
      if pyTruthy response.markdown then
        (.content (response.markdown.getD ""), [url])
      else
        (.error "No content could be extracted", [url])

/-- Tool 1, `extract_documentation(url)`: empty-URL guard, then
`extract_structured_data(url, schema_type="documentation")`. -/
def extract_documentation (scrape : ScrapeOracle) (url : String) :
    HostResult × List String :=
  if url == "" then (.error "URL cannot be empty", [])
  else extract_structured_data scrape url "documentation"

/-- Tool 2, `summarize_webpage(url)`: empty-URL guard, then
`get_website_content(url)`. -/
def summarize_webpage (scrape : ScrapeOracle) (url : String) :
    HostResult × List String :=
  if url == "" then (.error "URL cannot be empty", [])
  else get_website_content scrape url

/-- Tool 3, `extract_company_info(url)`: empty-URL guard, then
`extract_structured_data(url, schema_type="company")`. -/
def extract_company_info (scrape : ScrapeOracle) (url : String) :
    HostResult × List String :=
  if url == "" then (.error "URL cannot be empty", [])
  else extract_structured_data scrape url "company"

/-- An external call that succeeds with markdown-only content, used to observe
whether an operation issues the call. -/
def stubScrape : ScrapeOracle :=
  fun _ _ => .ok ⟨none, some "page content"⟩

/-- An external call that always raises, with exception message `e`. -/
def raisingScrape (e : String) : ScrapeOracle :=
  fun _ _ => .error e

/-- An external call that succeeds with a structured (`json`) payload. -/
def jsonScrape : ScrapeOracle :=
  fun _ _ => .ok ⟨some "company_name: Acme", none⟩

/-- An external call that succeeds with a non-empty markdown payload only. -/
def mdScrape : ScrapeOracle :=
  fun _ _ => .ok ⟨none, some "# Title"⟩

theorem pyStartsWith_http_ne_empty (url : String)
    (h : pyStartsWith url "http" = true) : (url == "") = false := by
  cases hu : url == ""
  · rfl
  · exfalso
    have : url = "" := eq_of_beq hu
    subst this
    exact absurd h (by decide)

theorem hostResult_cases (r : HostResult) :
    (∃ msg, r = .error msg) ∨ (∃ j, r = .jsonData j)
      ∨ (∃ raw note, r = .rawText raw note) ∨ (∃ md, r = .content md) := by
  cases r with
  | jsonData j => exact Or.inr (Or.inl ⟨j, rfl⟩)
  | rawText raw note => exact Or.inr (Or.inr (Or.inl ⟨raw, note, rfl⟩))
  | content md => exact Or.inr (Or.inr (Or.inr ⟨md, rfl⟩))
  | error msg => exact Or.inl ⟨msg, rfl⟩

/-- C3 counterexample: the claim requires every URL not beginning with
`"http://"` or `"https://"` to be rejected without an external call, but the
code only checks the prefix `"http"`.  The URL `"httpfoo"` begins with neither
scheme and is non-empty, yet `extract_documentation` issues the external call
and returns a non-error result. -/
theorem c3_counterexample :
    (pyStartsWith "httpfoo" "http://" = false
      ∧ pyStartsWith "httpfoo" "https://" = false ∧ "httpfoo" ≠ "")
    ∧ (extract_documentation stubScrape "httpfoo").2 = ["httpfoo"]
    ∧ (extract_documentation stubScrape "httpfoo").1.isError = false := by
  exact ⟨⟨by decide, by decide, by decide⟩, rfl, rfl⟩

/-- C3 amended: for every URL that is empty or does not begin with the prefix
`"http"` (the check the code actually performs; `"https://..."` also has this
prefix), each of the three Host operations returns the error variant and
issues no external call. -/
theorem c3_url_validation (scrape : ScrapeOracle) (url : String)
    (h : url = "" ∨ pyStartsWith url "http" = false) :
    ((extract_documentation scrape url).1.isError = true
      ∧ (extract_documentation scrape url).2 = [])
    ∧ ((summarize_webpage scrape url).1.isError = true
      ∧ (summarize_webpage scrape url).2 = [])
    ∧ ((extract_company_info scrape url).1.isError = true
      ∧ (extract_company_info scrape url).2 = []) := by
  rcases h with h | h
  · subst h
    exact ⟨⟨rfl, rfl⟩, ⟨rfl, rfl⟩, ⟨rfl, rfl⟩⟩
  · by_cases hempty : url = ""
    · subst hempty
      exact ⟨⟨rfl, rfl⟩, ⟨rfl, rfl⟩, ⟨rfl, rfl⟩⟩
    · simp [extract_documentation, summarize_webpage, extract_company_info,
        extract_structured_data, get_website_content, HostResult.isError,
        hempty, h]

/-- C3 witness: concrete evaluation at the non-HTTP URL `"ftp://x"`. -/
theorem c3_url_validation_witness :
    ((extract_documentation stubScrape "ftp://x").1.isError = true
      ∧ (extract_documentation stubScrape "ftp://x").2 = [])
    ∧ ((summarize_webpage stubScrape "ftp://x").1.isError = true
      ∧ (summarize_webpage stubScrape "ftp://x").2 = [])
    ∧ ((extract_company_info stubScrape "ftp://x").1.isError = true
      ∧ (extract_company_info stubScrape "ftp://x").2 = []) :=
  c3_url_validation stubScrape "ftp://x" (Or.inr (by decide))

/-- C4: for a URL passing validation, `extract_structured_data` returns the
structured payload when the response's `json` field is present (non-empty);
otherwise the markdown wrapped with the explanatory note when `markdown` is
present (non-empty); otherwise exactly the error
`"No data extracted from the page."` — in each case having issued exactly one
external call. -/
theorem c4_success_policy (scrape : ScrapeOracle) (url schema_type : String)
    (response : ScrapeResponse)
    (hurl : pyStartsWith url "http" = true)
    (hresp : scrape url ⟨["json", "markdown"], some (schemaFor schema_type)⟩
        = .ok response) :
    (pyTruthy response.json = true →
      extract_structured_data scrape url schema_type
        = (.jsonData (response.json.getD ""), [url]))
    ∧ (pyTruthy response.json = false → pyTruthy response.markdown = true →
      extract_structured_data scrape url schema_type
        = (.rawText (response.markdown.getD "")
            "Structured data not found. Returned raw markdown content.", [url]))
    ∧ (pyTruthy response.json = false → pyTruthy response.markdown = false →
      extract_structured_data scrape url schema_type
        = (.error "No data extracted from the page.", [url])) := by
  refine ⟨?_, ?_, ?_⟩ <;>
    · intros
      simp [extract_structured_data, hurl, hresp, *]

/-- C4 witness: a response with a structured payload yields the `data`
variant. -/
theorem c4_success_policy_witness :
    extract_structured_data jsonScrape "https://example.com" "company"
      = (.jsonData "company_name: Acme", ["https://example.com"]) :=
  (c4_success_policy jsonScrape "https://example.com" "company"
      ⟨some "company_name: Acme", none⟩ (by decide) rfl).1 (by decide)

/-- C5: every Host operation is total over our embedding and returns exactly
one envelope variant (an error message or one of the data shapes); and when
the external call raises an exception with message `e` on a URL that passes
validation, each operation returns the error variant whose message extends
the exception's message (the exception is converted, never propagated). -/
theorem c5_exception_envelope (scrape : ScrapeOracle) (url : String) :
    (∀ r ∈ [extract_documentation scrape url, summarize_webpage scrape url,
            extract_company_info scrape url],
        (∃ msg, r.1 = .error msg) ∨ (∃ j, r.1 = .jsonData j)
          ∨ (∃ raw note, r.1 = .rawText raw note) ∨ (∃ md, r.1 = .content md))
    ∧ (∀ e, (∀ req, scrape url req = .error e) → pyStartsWith url "http" = true →
        (extract_documentation scrape url).1 = .error ("Extraction failed: " ++ e)
        ∧ (summarize_webpage scrape url).1
            = .error ("Error fetching content: " ++ e)
        ∧ (extract_company_info scrape url).1
            = .error ("Extraction failed: " ++ e)) := by
  constructor
  · intro r _
    exact hostResult_cases r.1
  · intro e hraise hurl
    have hne := pyStartsWith_http_ne_empty url hurl
    refine ⟨?_, ?_, ?_⟩ <;>
      simp [extract_documentation, summarize_webpage, extract_company_info,
        extract_structured_data, get_website_content, hne, hurl, hraise]

/-- C5 witness: concrete evaluation with an always-raising external call. -/
theorem c5_exception_envelope_witness :
    (extract_documentation (raisingScrape "boom") "https://example.com").1
        = .error ("Extraction failed: " ++ "boom")
    ∧ (summarize_webpage (raisingScrape "boom") "https://example.com").1
        = .error ("Error fetching content: " ++ "boom")
    ∧ (extract_company_info (raisingScrape "boom") "https://example.com").1
        = .error ("Extraction failed: " ++ "boom") :=
  (c5_exception_envelope (raisingScrape "boom") "https://example.com").2 "boom"
    (fun _ => rfl) (by decide)

/-- C6: for a URL passing validation, when the external response carries only
a non-empty `markdown` field (no `json`), `get_website_content` returns
exactly `{"content": markdown}` from its single external call. -/
theorem c6_markdown_content (scrape : ScrapeOracle) (url md : String)
    (hurl : pyStartsWith url "http" = true)
    (hresp : scrape url ⟨["markdown"], none⟩ = .ok ⟨none, some md⟩)
    (hmd : md ≠ "") :
    get_website_content scrape url = (.content md, [url]) := by
  have hne := pyStartsWith_http_ne_empty url hurl
  simp [get_website_content, hne, hurl, hresp, pyTruthy, hmd]

/-- C6 witness: concrete evaluation with a markdown-only response. -/
theorem c6_markdown_content_witness :
    get_website_content mdScrape "https://example.com"
      = (.content "# Title", ["https://example.com"]) :=
  c6_markdown_content mdScrape "https://example.com" "# Title" (by decide) rfl
    (by decide)

/-- C7: `extract_company_info("")` returns exactly
`{"error": "URL cannot be empty"}` and `extract_company_info("not-a-url")`
returns exactly `{"error": "Invalid URL"}`, in both cases issuing no external
call, whatever the external call would do. -/
theorem c7_company_info_examples (scrape : ScrapeOracle) :
    extract_company_info scrape "" = (.error "URL cannot be empty", [])
    ∧ extract_company_info scrape "not-a-url" = (.error "Invalid URL", []) :=
  ⟨rfl, rfl⟩

end MCPServer

namespace MCPClient

/-- A message object in the reasoning engine's reply: `content` is `some _`
exactly when the object has a `content` attribute (`hasattr`), and `strRepr`
is its Python `str(...)` rendering. -/
structure AgentMessage where
  content : Option String
  strRepr : String
deriving Repr, DecidableEq

/-- The reasoning engine's reply in `run_app`: `messages` is `some _` exactly
when the dict has a `"messages"` key, and `strRepr` is
`str(agent_response)`. -/
structure AgentResponse where
  messages : Option (List AgentMessage)
  strRepr : String
deriving Repr, DecidableEq

/-- The response-extraction block of `run_app`:
`agent_response["messages"][-1]` followed by the
`hasattr(last_message, "content")` branch and the two string-rendering
fallbacks.  Python indexing `[-1]` on an empty list raises `IndexError`,
modelled by the `.error` case. -/
def extract_response (r : AgentResponse) : Except String String :=
  match r.messages with
  | none => .ok r.strRepr
  | some msgs =>
    match msgs.getLast? with
    | none => .error "IndexError: list index out of range"
    | some m =>
      match m.content with
      | some c => .ok c
      | none => .ok m.strRepr

/-- C8 counterexample: the claim says the extraction never raises, but on a
reply whose `"messages"` list is empty, `agent_response["messages"][-1]`
raises `IndexError` instead of producing any of the three tiers. -/
theorem c8_counterexample :
    extract_response ⟨some [], "whole-response-rendering"⟩
      = .error "IndexError: list index out of range" := rfl

/-- C8 amended: when the reply has no `"messages"` field the extraction
returns the string rendering of the whole reply, and when the `"messages"`
list is non-empty it returns the last message's `content` attribute if it has
one and otherwise that message's string rendering; but on a present and empty
`"messages"` list the indexing `[-1]` raises `IndexError` (caught only by
`run_app`'s outer exception handler). -/
theorem c8_response_extraction (r : AgentResponse) :
    (r.messages = none → extract_response r = .ok r.strRepr)
    ∧ (∀ msgs m, r.messages = some msgs → msgs.getLast? = some m →
        extract_response r = .ok (m.content.getD m.strRepr))
    ∧ (r.messages = some [] →
        extract_response r = .error "IndexError: list index out of range") := by
  refine ⟨?_, ?_, ?_⟩
  · intro h
    simp [extract_response, h]
  · intro msgs m hm hl
    rw [extract_response, hm]
    simp only [hl]
    cases hc : m.content <;> simp [hc]
  · intro h
    simp [extract_response, h]

/-- C8 witness: concrete evaluation at a one-message reply whose message has a
`content` attribute. -/
theorem c8_response_extraction_witness :
    extract_response ⟨some [⟨some "answer", "msgrepr"⟩], "whole"⟩
      = .ok ((some "answer").getD "msgrepr") :=
  (c8_response_extraction ⟨some [⟨some "answer", "msgrepr"⟩], "whole"⟩).2.1
    [⟨some "answer", "msgrepr"⟩] ⟨some "answer", "msgrepr"⟩ rfl rfl

/-- Python `str.lower()`, character by character over the code points. -/
def pyLower (s : String) : String :=
  ⟨s.data.map Char.toLower⟩

/-- The decision taken by one iteration of `interactive_mode` in
`mcp_client.py`. -/
inductive ReplAction where
  | halt
  | runQuery (query : String)
deriving Repr, DecidableEq

/-- One iteration of `interactive_mode`:
`if user_input.lower() in ('exit', 'quit'): break`, otherwise
`await run_app(user_input)` and continue. -/
def interactive_step (user_input : String) : ReplAction :=
  if pyLower user_input ∈ (["exit", "quit"] : List String) then .halt
  else .runQuery user_input

/-- A Python value as compared by `==` in the Airbnb REPL's exit check: a
string or a list of strings.  In Python, `==` between a `str` and a `list`
is always `False`. -/
inductive PyVal where
  | str (s : String)
  | strList (xs : List String)
deriving Repr, DecidableEq

/-- Python `==` on such values. -/
def pyEq : PyVal → PyVal → Bool
  | .str a, .str b => a == b
  | .strList a, .strList b => a == b
  | _, _ => false

/-- A conversation message `{"role": ..., "content": ...}`. -/
structure ChatMessage where
  role : String
  content : String
deriving Repr, DecidableEq

/-- The initial system message of the Airbnb REPL's history. -/
def airbnbSystemMessage : ChatMessage :=
  ⟨"system",
   "You are a helpful assistant that can scrape websites, crawl pages, and extract data using Airbnb tools. Think step by step and use the appropriate tools to help the user."⟩

/-- The decision taken by one iteration of the Airbnb REPL loop. -/
inductive AirbnbAction where
  | halt
  | proceed (messages : List ChatMessage)
deriving Repr, DecidableEq

/-- One iteration of the Airbnb `main` loop up to the engine call:
`user_input = input("\nYou: ").lower()`; the exit check
`if user_input == ["q", "bye", "quit"]`; otherwise
`messages.append({"role": "user", "content": user_input[:175000]})`. -/
def airbnb_loop_step (messages : List ChatMessage) (raw_input : String) :
    AirbnbAction :=
  let user_input := pyLower raw_input
  if pyEq (.str user_input) (.strList ["q", "bye", "quit"]) then .halt
  else .proceed (messages ++ [⟨"user", user_input.take 175000⟩])

/-- C9 counterexample: the claim says the session loop terminates exactly on
the keywords `"exit"`, `"quit"`, `"q"`, `"bye"`.  But `interactive_mode`
checks only `('exit', 'quit')`, so `"q"` is processed as a query; and the
Airbnb loop's check `user_input == ["q", "bye", "quit"]` compares a string
with a list, which is never true in Python, so even `"bye"` and `"quit"` do
not terminate it. -/
theorem c9_counterexample :
    interactive_step "q" = .runQuery "q"
    ∧ interactive_step "bye" = .runQuery "bye"
    ∧ airbnb_loop_step [airbnbSystemMessage] "bye" ≠ .halt
    ∧ airbnb_loop_step [airbnbSystemMessage] "quit" ≠ .halt := by
  refine ⟨?_, ?_, ?_, ?_⟩
  · rfl
  · rfl
  · simp [airbnb_loop_step, pyEq]
  · simp [airbnb_loop_step, pyEq]

/-- C9 amended: the Firecrawl client's interactive loop terminates exactly
when the lowercased input is `"exit"` or `"quit"` and processes any other
input as a query; the Airbnb REPL's exit check compares the input string with
the list `["q", "bye", "quit"]` using `==`, which never matches, so no
keyword terminates that loop. -/
theorem c9_exit_keywords (input : String) :
    (interactive_step input = .halt
      ↔ (pyLower input = "exit" ∨ pyLower input = "quit"))
    ∧ (¬ (pyLower input = "exit" ∨ pyLower input = "quit") →
        interactive_step input = .runQuery input)
    ∧ (∀ messages, airbnb_loop_step messages input ≠ .halt) := by
  refine ⟨?_, ?_, ?_⟩
  · constructor
    · intro h
      by_cases hc : pyLower input ∈ (["exit", "quit"] : List String)
      · simpa using hc
      · rw [interactive_step, if_neg hc] at h
        exact absurd h (by simp)
    · intro h
      have hc : pyLower input ∈ (["exit", "quit"] : List String) := by
        simpa using h
      rw [interactive_step, if_pos hc]
  · intro h
    rw [interactive_step, if_neg (by simpa using h)]
  · intro messages
    simp [airbnb_loop_step, pyEq]

/-- C9 witness: `"Exit"` lowercases to `"exit"` and halts the Firecrawl loop;
no input halts the Airbnb loop. -/
theorem c9_exit_keywords_witness :
    interactive_step "Exit" = .halt
    ∧ interactive_step "find me a room" = .runQuery "find me a room"
    ∧ airbnb_loop_step [airbnbSystemMessage] "q" ≠ .halt :=
  ⟨(c9_exit_keywords "Exit").1.2 (Or.inl (by decide)),
   (c9_exit_keywords "find me a room").2.1 (by decide),
   (c9_exit_keywords "q").2.2 [airbnbSystemMessage]⟩

theorem string_length_take_le (s : String) (n : Nat) : (s.take n).length ≤ n := by
  have hdata : (s.take n).data = s.data.take n := String.data_take s n
  have hlen : (s.take n).length = (s.data.take n).length := by
    rw [String.length, hdata]
  rw [hlen, List.length_take]
  omega

/-- C10: every iteration of the Airbnb REPL loop appends to the history
exactly one user message, whose content is the lowercased typed input
truncated to at most 175000 characters; the previous history is preserved as
a prefix (in particular a history headed by the initial system message keeps
it as its first element), and the engine's reply is never appended. -/
theorem c10_history_append (messages : List ChatMessage) (raw_input : String) :
    airbnb_loop_step messages raw_input
      = .proceed (messages ++ [(⟨"user", (pyLower raw_input).take 175000⟩ : ChatMessage)])
    ∧ ((pyLower raw_input).take 175000).length ≤ 175000
    ∧ messages <+: messages ++ [(⟨"user", (pyLower raw_input).take 175000⟩ : ChatMessage)]
    ∧ (messages ++ [(⟨"user", (pyLower raw_input).take 175000⟩ : ChatMessage)]).length
        = messages.length + 1
    ∧ ∀ rest : List ChatMessage,
        ((airbnbSystemMessage :: rest)
            ++ [(⟨"user", (pyLower raw_input).take 175000⟩ : ChatMessage)]).head?
          = some airbnbSystemMessage := by
  refine ⟨?_, string_length_take_le _ _, List.prefix_append _ _, by simp, ?_⟩
  · rfl
  · intro rest
    rfl

end MCPClient
